import Mathlib

/-!
Shallow embedding of `src/feature_pipeline/data_sourcing.py` from the
`lyft-bike-systems` repository: the `DataDownloader` class, which derives
download URLs and file names for monthly bike-share trip archives, probes a
city's data portal, downloads and extracts monthly zip archives into an
on-disk cache, and loads the cached CSVs into a concatenated table.

Modelling conventions:
- Python exceptions are an explicit `Err` value; a Python function that can
  raise returns `Except Err α`.  A Python function that returns `None` on some
  path returns an `Option` in the `ok` payload.
- The HTTP client and the zip extractor are external collaborators, modelled
  as oracles in an `Env` record (`http` returns `none` for a transport-level
  exception; `unzip` returns `none` when extraction raises; `writeFails`
  says whether opening/writing a given path raises).
- The filesystem is an explicit `Fs` value threaded through the effectful
  operations: a set of directories plus a path-to-file-data association list.
- Tables (pandas DataFrames) are lists of abstract rows (`List Nat`); the
  empty DataFrame is `[]` and `pd.concat` along axis 0 is list append.
  `pd.concat` silently drops `None` members, as pandas documents.
- Wall-clock time (`datetime.now()`) is passed in as `nowYear`/`nowMonth`.
-/

/-- Python exception kinds that the embedded code can raise. -/
inductive Err where
  | keyError       -- dict lookup with a missing key
  | typeError      -- e.g. `re.search` applied to `None`
  | unboundLocal   -- reading a local variable never assigned on this path
  | fileNotFound   -- `pd.read_csv` on a missing path
  | badContent     -- `pd.read_csv` on non-CSV content
  | transport      -- the HTTP client raised instead of returning a response
  | invalidURL     -- `get_zipfile_name`'s explicit `raise Exception`
  | assertionError -- the constructor's `assert`
deriving DecidableEq, Repr

/-- An HTTP response: status code and body bytes (the archive content). -/
structure Response where
  status : Nat
  content : String
deriving DecidableEq, Repr

/-- Data stored at a path: a downloaded zip archive or an extracted CSV. -/
inductive FileData where
  | zip (content : String)
  | csv (rows : List Nat)
deriving DecidableEq, Repr

/-- The local filesystem: existing directories and files with contents. -/
structure Fs where
  dirs : List String
  files : List (String × FileData)
deriving DecidableEq, Repr

/-- `Path.exists()`: true for directories and files alike. -/
def Fs.pathExists (fs : Fs) (p : String) : Bool :=
  p ∈ fs.dirs || (fs.files.lookup p).isSome

/-- `os.mkdir`. -/
def Fs.mkdir (fs : Fs) (p : String) : Fs :=
  { fs with dirs := p :: fs.dirs }

/-- Writing a file (`open(..., "wb").write`); a later lookup sees the
newest entry first, so cons acts as overwrite. -/
def Fs.write (fs : Fs) (p : String) (d : FileData) : Fs :=
  { fs with files := (p, d) :: fs.files }

/-- `os.remove`. -/
def Fs.remove (fs : Fs) (p : String) : Fs :=
  { fs with files := fs.files.filter (fun e => ¬ e.1 = p) }

/-- `pd.read_csv` at a path: raises `FileNotFoundError` when the path is
absent, a parse error when the content is not a CSV. -/
def readCsv (fs : Fs) (p : String) : Except Err (List Nat) :=
  match fs.files.lookup p with
  | some (.csv rows) => .ok rows
  | some (.zip _) => .error .badContent
  | none => .error .fileNotFound

/-- External collaborators: HTTP transport, zip extraction, write failures. -/
structure Env where
  http : String → Option Response
  unzip : String → String → Option (List Nat)
  writeFails : String → Bool

/-- Modelled from the spec: `RAW_DATA_DIR` comes from `src.setup.paths`,
which is not in the repository snapshot; the spec fixes only that it is
"a configured raw-data root", so its concrete value is arbitrary. -/
def RAW_DATA_DIR : String := "raw"

/-- Modelled from the spec: `make_needed_directories` from `src.setup.paths`
is "directory bootstrap ... thin wrappers with no branching logic worth
specifying" (out of scope), so it is the identity on the filesystem model. -/
def make_needed_directories (fs : Fs) : Fs := fs

/-- The `self.service_names` dict from `DataDownloader.__init__`. -/
def service_names : List (String × String) :=
  [("bay_area", "bay-wheels"),
   ("chicago", "divvybikes"),
   ("new_york", "citibikenyc"),
   ("columbus", "cogobikeshare"),
   ("washington_dc", "capitalbikeshare"),
   ("portland", "biketownpdx")]

/-- Python `str.lower()` (per-character lowering of the city name). -/
def pyLower (s : String) : String := String.mk (s.data.map Char.toLower)

/-- `DataDownloader.__init__`: lowercases the city name and asserts that it
is a key of `service_names`; returns the stored city name. -/
def DataDownloader_init (city_name : String) (_year : Nat) : Except Err String :=
  let c := pyLower city_name
  if (service_names.lookup c).isSome then .ok c else .error .assertionError

/-- Python `f"{self.year}{month:02d}"`. -/
def year_and_month (year month : Nat) : String :=
  toString year ++ (if month < 10 then "0" ++ toString month else toString month)

/-- `DataDownloader.get_data_file_name`: an unchecked dict lookup; `none`
models the `KeyError` raised when the city is not a key (e.g. `bay_area`). -/
def get_data_file_name (city : String) (year month : Nat) : Option String :=
  let ym := year_and_month year month
  ([("chicago", ym ++ "-divvy-tripdata"),
    ("new_york", ym ++ "-citibike-tripdata"),
    ("columbus", ym ++ "-cogo-tripdata"),
    ("washington_dc", ym ++ "-capitalbikeshare-tripdata"),
    ("portland", ym ++ ".csv")] : List (String × String)).lookup city

/-- `DataDownloader.get_url_for_city_data`: returns `ok none` (Python falls
through and returns `None`) for Portland after 2020; otherwise builds
`"https://" + prefix + file_name + ".zip"`; `error` models the `KeyError`
from either dict lookup. -/
def get_url_for_city_data (city : String) (year month : Nat) :
    Except Err (Option String) :=
  let heads : List (String × String) :=
    [("chicago", "divvy-tripdata.s3.amazonaws.com/"),
     ("new_york", "s3.amazonaws.com/tripdata/"),
     ("columbus", "cogo-sys-data.s3.amazonaws.com/"),
     ("washington_dc", "s3.amazonaws.com/capitalbikeshare-data/"),
     ("portland", "s3.amazonaws.com/biketown-tripdata-public/")]
  if city = "portland" ∧ 2020 < year then
    .ok none
  else
    match get_data_file_name city year month with
    | none => .error .keyError
    | some file_name =>
      match heads.lookup city with
      | none => .error .keyError
      | some head => .ok (some ("https://" ++ head ++ file_name ++ ".zip"))

/-- The text after the last `/` of a string (empty when the string ends in
`/`): the match of the regex `([^/]+)$`. -/
def after_last_slash (s : String) : String :=
  String.mk (s.data.foldl (fun acc c => if c = '/' then [] else acc ++ [c]) [])

/-- `DataDownloader.get_zipfile_name`: the regex `([^/]+)$` yields the
non-empty text after the last slash; when there is no match (the URL ends
in a slash or is empty) the function raises `Exception("Invalid URL")`. -/
def get_zipfile_name (url : String) : Except Err String :=
  let last := after_last_slash url
  if last = "" then .error .invalidURL else .ok last

/-- `DataDownloader.data_file_exists`: existence of
`RAW_DATA_DIR/<city>/<file_name>`. -/
def data_file_exists (city file_name : String) (fs : Fs) : Bool :=
  fs.pathExists (RAW_DATA_DIR ++ "/" ++ city ++ "/" ++ file_name)

/-- The portal URL built inside `city_has_data` (lines 93-96): the Bay Area
page has a different URL format. -/
def system_data_url (city service : String) : String :=
  if city = "bay_area" then "https://lyft.com/bikes/" ++ service
  else "https://" ++ service ++ ".com/system-data"

/-- `DataDownloader.city_has_data`: builds the portal URL (Bay Area has a
distinct shape) and issues a GET; returns whether the status is 200.  There
is no exception handler, so a transport failure propagates. -/
def city_has_data (city : String) (env : Env) : Except Err Bool :=
  match service_names.lookup city with
  | some service =>
    match env.http (system_data_url city service) with
    | none => .error .transport
    | some response => .ok (response.status == 200)
  | none => .ok false

/-- Result of one `download_one_file_of_raw_data` call: the returned value
(or uncaught exception), the filesystem afterwards, and the archive URLs
actually requested over the network. -/
structure DlOut where
  result : Except Err (Option (List Nat))
  fs : Fs
  requested : List String
deriving Repr

/-- `DataDownloader.download_one_file_of_raw_data`: derives the URL and the
zipfile name (both outside the `try`), then inside the `try` issues the GET,
creates the month's cache directory if absent, writes the archive, extracts
the CSV member into the directory, deletes the archive unless kept, and
reads the extracted CSV; any exception inside the `try` is caught and the
function returns `None` (modelled `.ok none`).  The archive handed to the
extractor is the response body just written to `zipfile_path`. -/
def download_one_file_of_raw_data (city : String) (year month : Nat)
    (keep_zipfile : Bool) (env : Env) (fs : Fs) : DlOut :=
  match get_url_for_city_data city year month with
  | .error e => ⟨.error e, fs, []⟩
  | .ok none => ⟨.error .typeError, fs, []⟩   -- re.search(pattern, None)
  | .ok (some url) =>
    match get_zipfile_name url with
    | .error e => ⟨.error e, fs, []⟩
    | .ok zipfile_name =>
      let file_name := zipfile_name.dropRight 4
      let data_directory := RAW_DATA_DIR ++ "/" ++ city ++ "/" ++ file_name
      let zipfile_path := RAW_DATA_DIR ++ "/" ++ city ++ "/" ++ zipfile_name
      match env.http url with
      | none => ⟨.ok none, fs, [url]⟩          -- transport raised; caught
      | some response =>
        let fs1 := if fs.pathExists data_directory then fs
                   else fs.mkdir data_directory
        if env.writeFails zipfile_path then
          ⟨.ok none, fs1, [url]⟩                -- write raised; caught
        else
          let fs2 := fs1.write zipfile_path (.zip response.content)
          match env.unzip response.content (file_name ++ ".csv") with
          | none => ⟨.ok none, fs2, [url]⟩      -- extraction raised; caught
          | some rows =>
            let fs3 := fs2.write (data_directory ++ "/" ++ file_name ++ ".csv")
                                 (.csv rows)
            let fs4 := if keep_zipfile then fs3 else fs3.remove zipfile_path
            match readCsv fs4 (data_directory ++ "/" ++ file_name ++ ".csv") with
            | .error _ => ⟨.ok none, fs4, [url]⟩
            | .ok rows2 => ⟨.ok (some rows2), fs4, [url]⟩

/-- The loop state of `load_raw_data`: the accumulated `data` DataFrame, the
Python local `data_for_the_month` (`none` = still unbound on this path), the
filesystem, and the archive URLs requested. -/
structure LoopState where
  data : List Nat
  dftm : Option (Option (List Nat))
  fs : Fs
  requested : List String
deriving Repr

/-- One iteration of the month loop in `DataDownloader.load_raw_data`
(lines 64-79): derive the file name, branch on `just_download` and the cache
check, then `pd.concat` the month's value onto `data`.  Reading
`data_for_the_month` while unbound raises `UnboundLocalError`; `pd.concat`
silently drops a `None` member.  On the load path a cache hit reads
`RAW_DATA_DIR/<file_name>/<file_name>.csv` — exactly as in the source, with
no city segment.  Returns the state as mutated so far plus the uncaught
exception, if any. -/
def loadMonthStep (city : String) (year : Nat) (just_download : Bool)
    (env : Env) (s : LoopState) (month : Nat) : LoopState × Option Err :=
  match get_data_file_name city year month with
  | none => (s, some .keyError)
  | some file_name =>
    let afterFetch : LoopState × Option Err :=
      if just_download then
        if data_file_exists city file_name s.fs then
          (s, none)                       -- log only; no assignment
        else
          let out := download_one_file_of_raw_data city year month false env s.fs
          let s1 := { s with fs := out.fs,
                             requested := s.requested ++ out.requested }
          match out.result with
          | .error e => (s1, some e)
          | .ok v => ({ s1 with dftm := some v }, none)
      else
        if data_file_exists city file_name s.fs then
          match readCsv s.fs (RAW_DATA_DIR ++ "/" ++ file_name ++ "/"
                              ++ file_name ++ ".csv") with
          | .error e => (s, some e)       -- pd.read_csv raised; uncaught
          | .ok rows => ({ s with dftm := some (some rows) }, none)
        else
          let out := download_one_file_of_raw_data city year month false env s.fs
          let s1 := { s with fs := out.fs,
                             requested := s.requested ++ out.requested }
          match out.result with
          | .error e => (s1, some e)
          | .ok v => ({ s1 with dftm := some v }, none)
    match afterFetch with
    | (s1, some e) => (s1, some e)
    | (s1, none) =>
      match s1.dftm with
      | none => (s1, some .unboundLocal)  -- data_for_the_month unbound
      | some none => (s1, none)           -- pd.concat drops None
      | some (some t) => ({ s1 with data := s1.data ++ t }, none)

/-- The month loop of `load_raw_data`: run `loadMonthStep` over the months
in order, stopping at the first uncaught exception.  The third component
records the months whose iteration was entered. -/
def runMonths (city : String) (year : Nat) (just_download : Bool) (env : Env) :
    LoopState → List Nat → LoopState × Option Err × List Nat
  | s, [] => (s, none, [])
  | s, m :: ms =>
    match loadMonthStep city year just_download env s m with
    | (s1, none) =>
      match runMonths city year just_download env s1 ms with
      | (s2, o, att) => (s2, o, m :: att)
    | (s1, some e) => (s1, some e, [m])

/-- Lines 56-58 of `load_raw_data`: the implicit month range is
`range(1, end_month + 1)` where `end_month` is the current month when the
requested year is the current year and 12 otherwise; an explicit list is
used as given. -/
def months_to_query_for (year nowYear nowMonth : Nat)
    (months : Option (List Nat)) : List Nat :=
  match months with
  | some ms => ms
  | none => List.range' 1 (if year = nowYear then nowMonth else 12)

/-- Result of one `load_raw_data` call: the returned value (`ok none` models
Python returning `None` when the availability probe fails; `error` an
uncaught exception), the filesystem afterwards, the archive URLs requested,
and the months whose iteration was entered. -/
structure LoadOut where
  result : Except Err (Option (List Nat))
  fs : Fs
  requested : List String
  attempted : List Nat
deriving Repr

/-- `DataDownloader.load_raw_data`: resolves the month selection, probes the
city portal, and on success runs the month loop on an empty DataFrame,
returning the concatenation; when the probe returns false the function falls
off the `if` and returns `None`. -/
def load_raw_data (city : String) (year : Nat) (just_download : Bool)
    (months : Option (List Nat)) (nowYear nowMonth : Nat)
    (env : Env) (fs : Fs) : LoadOut :=
  let fs := make_needed_directories fs
  let ms := months_to_query_for year nowYear nowMonth months
  match city_has_data city env with
  | .error e => ⟨.error e, fs, [], []⟩
  | .ok false => ⟨.ok none, fs, [], []⟩
  | .ok true =>
    match runMonths city year just_download env ⟨[], none, fs, []⟩ ms with
    | (s, none, att) => ⟨.ok (some s.data), s.fs, s.requested, att⟩
    | (s, some e, att) => ⟨.error e, s.fs, s.requested, att⟩

/-! ### Concrete fixtures used by the closed theorems and witnesses -/

/-- Every GET returns HTTP 200 with archive content `"Z"`, every extraction
yields the one-row table `[7]`, every write succeeds. -/
def env200 : Env := ⟨fun _ => some ⟨200, "Z"⟩, fun _ _ => some [7], fun _ => false⟩

/-- The HTTP client raises at transport level on every request. -/
def envT : Env := ⟨fun _ => none, fun _ _ => none, fun _ => false⟩

/-- Every GET returns HTTP 404. -/
def env404 : Env := ⟨fun _ => some ⟨404, "E"⟩, fun _ _ => none, fun _ => false⟩

/-- Every GET returns a 404 page whose body is not a zip archive (the
realistic miss: `requests.get` does not raise on 404), so the write succeeds
and the extraction raises. -/
def envBadZip : Env := ⟨fun _ => some ⟨404, "NOTAZIP"⟩, fun _ _ => none, fun _ => false⟩

/-- Every GET returns HTTP 200, but every file write raises. -/
def envWF : Env := ⟨fun _ => some ⟨200, "Z"⟩, fun _ _ => some [7], fun _ => true⟩

/-- The empty filesystem. -/
def fs0 : Fs := ⟨[], []⟩

/-- The archive URL the model derives for Chicago, year 2024, month `m`. -/
def chicagoUrl (m : Nat) : String :=
  "https://divvy-tripdata.s3.amazonaws.com/" ++ year_and_month 2024 m
    ++ "-divvy-tripdata.zip"

/-- Transport failure for the month-2 archive only; every other GET returns
200, and extraction yields table `[1]` for month 1 and `[3]` for month 3. -/
def envC1 : Env :=
  ⟨fun u => if u = chicagoUrl 2 then none else some ⟨200, "Z"⟩,
   fun _ member =>
     if member = "202401-divvy-tripdata.csv" then some [1]
     else if member = "202403-divvy-tripdata.csv" then some [3]
     else none,
   fun _ => false⟩

/-- A cache in which months 1 and 2 of 2024 for Chicago were populated by a
prior extraction: the month directories exist under the city root and each
holds its extracted CSV (2 rows for month 1, 1 row for month 2). -/
def fsCachedTwo : Fs :=
  ⟨["raw/chicago/202401-divvy-tripdata", "raw/chicago/202402-divvy-tripdata"],
   [("raw/chicago/202401-divvy-tripdata/202401-divvy-tripdata.csv", .csv [10, 11]),
    ("raw/chicago/202402-divvy-tripdata/202402-divvy-tripdata.csv", .csv [20])]⟩

/-- A cache in which only the month-1 directory for Chicago exists. -/
def fsCachedOne : Fs := ⟨["raw/chicago/202401-divvy-tripdata"], []⟩

/-! ### Claims -/

/-- C5: for every supported (city, year, month), `get_data_file_name` is a
pure deterministic function of its inputs (the Lean embedding is a pure
function, so two calls with the same inputs are definitionally identical and
no network or disk access occurs) whose output matches the documented
per-city template exactly; in particular Chicago, year 2024, month 3 yields
`"202403-divvy-tripdata"`. -/
theorem C5_file_name_pure_and_templated :
    (∀ y m, get_data_file_name "chicago" y m
        = some (year_and_month y m ++ "-divvy-tripdata"))
  ∧ (∀ y m, get_data_file_name "new_york" y m
        = some (year_and_month y m ++ "-citibike-tripdata"))
  ∧ (∀ y m, get_data_file_name "columbus" y m
        = some (year_and_month y m ++ "-cogo-tripdata"))
  ∧ (∀ y m, get_data_file_name "washington_dc" y m
        = some (year_and_month y m ++ "-capitalbikeshare-tripdata"))
  ∧ (∀ y m, get_data_file_name "portland" y m
        = some (year_and_month y m ++ ".csv"))
  ∧ (∀ c y m, get_data_file_name c y m = get_data_file_name c y m)
  ∧ get_data_file_name "chicago" 2024 3 = some "202403-divvy-tripdata" :=
  ⟨fun _ _ => rfl, fun _ _ => rfl, fun _ _ => rfl, fun _ _ => rfl,
   fun _ _ => rfl, fun _ _ _ => rfl, rfl⟩

/-- C4: `get_url_for_city_data` for Portland with any year strictly greater
than 2020 produces no URL (`ok none`, for every month), and for year 2020,
month 5 returns exactly the documented Biketown URL. -/
theorem C4_portland_url (year month : Nat) (h : 2020 < year) :
    get_url_for_city_data "portland" year month = .ok none
  ∧ get_url_for_city_data "portland" 2020 5 =
      .ok (some "https://s3.amazonaws.com/biketown-tripdata-public/202005.csv.zip") := by
  constructor
  · unfold get_url_for_city_data
    simp [h]
  · rfl

theorem C4_portland_url_witness :
    2020 < 2021
  ∧ (get_url_for_city_data "portland" 2021 1 = .ok none
  ∧ get_url_for_city_data "portland" 2020 5 =
      .ok (some "https://s3.amazonaws.com/biketown-tripdata-public/202005.csv.zip")) :=
  ⟨by decide, C4_portland_url 2021 1 (by decide)⟩

/-- C2 (failing-input evaluation): with months 1 and 2 of 2024 for Chicago
both cached under the city root (populated exactly as a prior extraction
leaves them) and the portal answering 200, the load path (`just_download`
false) does NOT return the 3 concatenated rows: the cache check hits, no
archive download is requested, but line 75 reads
`RAW_DATA_DIR/<file>/<file>.csv` — without the city segment used by the
cache check and by the extraction — so `pd.read_csv` raises
`FileNotFoundError` and the batch aborts on the first month.  The last two
conjuncts exhibit the path discrepancy: the city-rooted CSV is readable,
the path actually read is absent. -/
theorem C2_cached_load_reads_wrong_path :
    (load_raw_data "chicago" 2024 false (some [1, 2]) 2024 6 env200 fsCachedTwo).result
      = .error .fileNotFound
  ∧ (load_raw_data "chicago" 2024 false (some [1, 2]) 2024 6 env200 fsCachedTwo).requested
      = []
  ∧ data_file_exists "chicago" "202401-divvy-tripdata" fsCachedTwo = true
  ∧ readCsv fsCachedTwo
      "raw/chicago/202401-divvy-tripdata/202401-divvy-tripdata.csv" = .ok [10, 11]
  ∧ readCsv fsCachedTwo
      "raw/202401-divvy-tripdata/202401-divvy-tripdata.csv" = .error .fileNotFound :=
  ⟨rfl, rfl, rfl, rfl, rfl⟩

/-- C3 (failing-input evaluation): with Chicago's month 1 of 2024 already
cached and `just_download` true, the per-month fetch is not a no-op: the
cache-hit branch only logs and assigns nothing, and the unconditional
`pd.concat` on line 79 then reads the never-assigned local
`data_for_the_month`, raising `UnboundLocalError` and aborting the batch
(no download is requested). -/
theorem C3_just_download_cache_hit_raises :
    (load_raw_data "chicago" 2024 true (some [1]) 2024 6 env200 fsCachedOne).result
      = .error .unboundLocal
  ∧ (load_raw_data "chicago" 2024 true (some [1]) 2024 6 env200 fsCachedOne).requested
      = []
  ∧ data_file_exists "chicago" "202401-divvy-tripdata" fsCachedOne = true :=
  ⟨rfl, rfl, rfl⟩

/-- C6 (counterexample): the claim says a transport-level failure of the
probe's GET makes the probe return false; but `city_has_data` has no
exception handler, so with an HTTP client that raises on every request the
probe for Chicago propagates the exception instead of returning false. -/
theorem C6_transport_failure_propagates :
    city_has_data "chicago" envT ≠ .ok false
  ∧ city_has_data "chicago" envT = .error .transport :=
  ⟨fun h => Except.noConfusion h, rfl⟩

/-- C6 (amended): for every registered city, the availability probe returns
true exactly when the GET against the portal URL yields status 200 and false
for any other status; when the HTTP client raises at transport level, the
probe propagates the exception rather than returning false. -/
theorem C6_probe_status (city service : String) (env : Env)
    (hs : service_names.lookup city = some service) :
    (∀ r, env.http (system_data_url city service) = some r →
        city_has_data city env = .ok (r.status == 200))
  ∧ (env.http (system_data_url city service) = none →
        city_has_data city env = .error .transport) := by
  constructor
  · intro r hr
    unfold city_has_data
    rw [hs]
    dsimp only
    rw [hr]
  · intro hr
    unfold city_has_data
    rw [hs]
    dsimp only
    rw [hr]

theorem C6_probe_status_witness :
    city_has_data "chicago" env200 = .ok true
  ∧ city_has_data "chicago" env404 = .ok false
  ∧ city_has_data "chicago" envT = .error .transport :=
  ⟨(C6_probe_status "chicago" "divvybikes" env200 rfl).1 ⟨200, "Z"⟩ rfl,
   (C6_probe_status "chicago" "divvybikes" env404 rfl).1 ⟨404, "E"⟩ rfl,
   (C6_probe_status "chicago" "divvybikes" envT rfl).2 rfl⟩

/-- C9: constructing the fetcher for `"bay_area"` succeeds (it is a key of
`service_names`), yet `get_data_file_name` has no `"bay_area"` key, so for
every year and month the file-name lookup raises `KeyError`; consequently
every per-month download and every batch fetch that passes the availability
probe terminates with the uncaught `KeyError` instead of a reported
result. -/
theorem C9_bay_area_keyerror :
    DataDownloader_init "bay_area" 2024 = .ok "bay_area"
  ∧ (∀ y m, get_data_file_name "bay_area" y m = none)
  ∧ (∀ y m keep env fs,
      (download_one_file_of_raw_data "bay_area" y m keep env fs).result
        = .error .keyError)
  ∧ (∀ y jd months ny nm env fs m ms,
      city_has_data "bay_area" env = .ok true →
      months_to_query_for y ny nm months = m :: ms →
      (load_raw_data "bay_area" y jd months ny nm env fs).result
        = .error .keyError) := by
  refine ⟨rfl, fun y m => rfl, fun y m keep env fs => rfl, ?_⟩
  intro y jd months ny nm env fs m ms hprobe hms
  unfold load_raw_data
  rw [hms, hprobe]
  simp only [runMonths, loadMonthStep, get_data_file_name]
  rfl

theorem C9_bay_area_keyerror_witness :
    city_has_data "bay_area" env200 = .ok true
  ∧ months_to_query_for 2024 2024 6 (some [1]) = [1]
  ∧ (load_raw_data "bay_area" 2024 true (some [1]) 2024 6 env200 fs0).result
      = .error .keyError :=
  ⟨rfl, rfl,
   C9_bay_area_keyerror.2.2.2 2024 true (some [1]) 2024 6 env200 fs0 1 [] rfl rfl⟩

/-- When the month loop completes without an uncaught exception, the months
whose iterations were entered are exactly the input months, in order. -/
theorem runMonths_attempted (city : String) (year : Nat) (jd : Bool)
    (env : Env) :
    ∀ (ms : List Nat) (s : LoopState),
      (runMonths city year jd env s ms).2.1 = none →
      (runMonths city year jd env s ms).2.2 = ms := by
  intro ms
  induction ms with
  | nil => intro s _; rfl
  | cons m ms ih =>
    intro s hok
    unfold runMonths at hok ⊢
    cases hstep : loadMonthStep city year jd env s m with
    | mk s1 o =>
      rw [hstep] at hok
      cases o with
      | some e => simp at hok
      | none =>
        dsimp only at hok ⊢
        have hatt := ih s1 hok
        cases hrec : runMonths city year jd env s1 ms with
        | mk s2 rest =>
          cases rest with
          | mk o2 att =>
            rw [hrec] at hatt
            dsimp only at hatt ⊢
            rw [hatt]

/-- C8: when no explicit month list is supplied, the batch fetch iterates
over months 1 through the current wall-clock month when the requested year
is the current year and over months 1 through 12 otherwise; with an explicit
list, exactly those months are processed in the order given.  The first
conjunct ties the months actually attempted by a completed batch fetch to
the selector; the others characterise the selector itself. -/
theorem C8_month_selection (city : String) (year nowYear nowMonth : Nat)
    (jd : Bool) (months : Option (List Nat)) (env : Env) (fs : Fs)
    (v : Option (List Nat))
    (hprobe : city_has_data city env = .ok true)
    (hok : (load_raw_data city year jd months nowYear nowMonth env fs).result
      = .ok v) :
    (load_raw_data city year jd months nowYear nowMonth env fs).attempted
      = months_to_query_for year nowYear nowMonth months
  ∧ months_to_query_for year nowYear nowMonth none
      = List.range' 1 (if year = nowYear then nowMonth else 12)
  ∧ (∀ ms, months_to_query_for year nowYear nowMonth (some ms) = ms) := by
  refine ⟨?_, rfl, fun ms => rfl⟩
  unfold load_raw_data at hok ⊢
  rw [hprobe] at hok ⊢
  dsimp only at hok ⊢
  cases hrun : runMonths city year jd env
      ⟨[], none, make_needed_directories fs, []⟩
      (months_to_query_for year nowYear nowMonth months) with
  | mk s rest =>
    rw [hrun] at hok
    cases rest with
    | mk o att =>
      cases o with
      | some e => simp at hok
      | none =>
        have := runMonths_attempted city year jd env
          (months_to_query_for year nowYear nowMonth months)
          ⟨[], none, make_needed_directories fs, []⟩
        rw [hrun] at this
        simpa using this rfl

theorem C8_month_selection_witness :
    city_has_data "chicago" env200 = .ok true
  ∧ (load_raw_data "chicago" 2024 true none 2024 2 env200 fs0).result
      = .ok (some [7, 7])
  ∧ ((load_raw_data "chicago" 2024 true none 2024 2 env200 fs0).attempted
      = months_to_query_for 2024 2024 2 none
    ∧ months_to_query_for 2024 2024 2 none
      = List.range' 1 (if 2024 = 2024 then 2 else 12)
    ∧ (∀ ms, months_to_query_for 2024 2024 2 (some ms) = ms)) :=
  ⟨rfl, rfl,
   C8_month_selection "chicago" 2024 2024 2 true none env200 fs0
     (some [7, 7]) rfl rfl⟩

/-- C7: for every registered city, when the availability probe gets a
non-200 status the batch fetch returns `None` (no result, rather than an
empty or partial table), requests no archive download for any month, and
enters no month iteration. -/
theorem C7_probe_failure_no_downloads (city service : String)
    (year nowYear nowMonth : Nat) (jd : Bool) (months : Option (List Nat))
    (env : Env) (fs : Fs) (r : Response)
    (hs : service_names.lookup city = some service)
    (hhttp : env.http (system_data_url city service) = some r)
    (hr : r.status ≠ 200) :
    (load_raw_data city year jd months nowYear nowMonth env fs).result = .ok none
  ∧ (load_raw_data city year jd months nowYear nowMonth env fs).requested = []
  ∧ (load_raw_data city year jd months nowYear nowMonth env fs).attempted = [] := by
  have hprobe : city_has_data city env = .ok false := by
    unfold city_has_data
    rw [hs]
    dsimp only
    rw [hhttp]
    simp [hr]
  unfold load_raw_data
  rw [hprobe]
  exact ⟨rfl, rfl, rfl⟩

theorem C7_probe_failure_no_downloads_witness :
    (load_raw_data "chicago" 2024 false (some [1, 2]) 2024 6 env404 fs0).result
      = .ok none
  ∧ (load_raw_data "chicago" 2024 false (some [1, 2]) 2024 6 env404 fs0).requested
      = []
  ∧ (load_raw_data "chicago" 2024 false (some [1, 2]) 2024 6 env404 fs0).attempted
      = [] :=
  C7_probe_failure_no_downloads "chicago" "divvybikes" 2024 2024 6 false
    (some [1, 2]) env404 fs0 ⟨404, "E"⟩ rfl rfl (by decide)

/-- A path that exists keeps existing after a file write. -/
theorem pathExists_write (fs : Fs) (p q : String) (d : FileData)
    (h : fs.pathExists p = true) : (fs.write q d).pathExists p = true := by
  by_cases hpq : (p == q) = true
  · simp [Fs.pathExists, Fs.write, List.lookup, hpq]
  · simp [Fs.pathExists, Fs.write, List.lookup, hpq]
    simpa [Fs.pathExists] using h

/-- The directory just created exists. -/
theorem pathExists_mkdir_self (fs : Fs) (p : String) :
    (fs.mkdir p).pathExists p = true := by
  simp [Fs.mkdir, Fs.pathExists]

/-- Writing at one path leaves the lookup of a different path unchanged. -/
theorem lookup_write_ne (fs : Fs) (p q : String) (d : FileData)
    (h : ¬ p = q) : (fs.write q d).files.lookup p = fs.files.lookup p := by
  have hb : (p == q) = false := beq_eq_false_iff_ne.mpr h
  simp [Fs.write, List.lookup, hb]

/-- C1: an exception during a single month's download — the network request
(`http = none`), the file write (`writeFails`), or the archive extraction
(`unzip = none`) — is caught inside `download_one_file_of_raw_data` and
converted to an absent result (`None`, not an exception) for that month; and
the batch continues: in the concrete three-month batch where month 2's
archive request fails at transport level, months 1 and 3 are still attempted
and their rows `[1]` and `[3]` appear in the concatenated result. -/
theorem C1_download_exception_caught (city : String) (year month : Nat)
    (keep : Bool) (env : Env) (fs : Fs) (url zn : String)
    (hurl : get_url_for_city_data city year month = .ok (some url))
    (hzn : get_zipfile_name url = .ok zn) :
    (env.http url = none →
      (download_one_file_of_raw_data city year month keep env fs).result = .ok none)
  ∧ (∀ r, env.http url = some r →
      env.writeFails (RAW_DATA_DIR ++ "/" ++ city ++ "/" ++ zn) = true →
      (download_one_file_of_raw_data city year month keep env fs).result = .ok none)
  ∧ (∀ r, env.http url = some r →
      env.unzip r.content (zn.dropRight 4 ++ ".csv") = none →
      (download_one_file_of_raw_data city year month keep env fs).result = .ok none)
  ∧ ((load_raw_data "chicago" 2024 false (some [1, 2, 3]) 2024 6 envC1 fs0).result
       = .ok (some [1, 3])
    ∧ (load_raw_data "chicago" 2024 false (some [1, 2, 3]) 2024 6 envC1 fs0).attempted
       = [1, 2, 3]) := by
  refine ⟨?_, ?_, ?_, rfl, rfl⟩
  · intro hhttp
    unfold download_one_file_of_raw_data
    rw [hurl]
    dsimp only
    rw [hzn]
    dsimp only
    rw [hhttp]
  · intro r hr hw
    unfold download_one_file_of_raw_data
    rw [hurl]
    dsimp only
    rw [hzn]
    dsimp only
    rw [hr]
    dsimp only
    simp [hw]
  · intro r hr hu
    unfold download_one_file_of_raw_data
    rw [hurl]
    dsimp only
    rw [hzn]
    dsimp only
    rw [hr]
    dsimp only
    cases hwf : env.writeFails (RAW_DATA_DIR ++ "/" ++ city ++ "/" ++ zn) with
    | true => simp [hwf]
    | false => simp [hwf, hu]

theorem C1_download_exception_caught_witness :
    get_url_for_city_data "chicago" 2024 1 = .ok (some (chicagoUrl 1))
  ∧ (download_one_file_of_raw_data "chicago" 2024 1 false envT fs0).result = .ok none
  ∧ ((load_raw_data "chicago" 2024 false (some [1, 2, 3]) 2024 6 envC1 fs0).result
       = .ok (some [1, 3])
    ∧ (load_raw_data "chicago" 2024 false (some [1, 2, 3]) 2024 6 envC1 fs0).attempted
       = [1, 2, 3]) :=
  ⟨rfl,
   (C1_download_exception_caught "chicago" 2024 1 false envT fs0 (chicagoUrl 1)
      "202401-divvy-tripdata.zip" rfl rfl).1 rfl,
   (C1_download_exception_caught "chicago" 2024 1 false envT fs0 (chicagoUrl 1)
      "202401-divvy-tripdata.zip" rfl rfl).2.2.2⟩

/-- C10 (counterexample): the claim says the cache directory is created
before the download is made, so that ANY failure of the caught branch —
including a failure of the download request itself — leaves the directory
behind and makes later cache checks hit.  But the `mkdir` sits after
`requests.get` inside the `try`: on a fresh cache, a transport-level failure
of the month-1 archive request for Chicago is caught (`None` result) and the
later cache check still misses — no directory was created. -/
theorem C10_transport_failure_leaves_no_dir :
    (download_one_file_of_raw_data "chicago" 2024 1 false envT fs0).result
      = .ok none
  ∧ data_file_exists "chicago" "202401-divvy-tripdata"
      (download_one_file_of_raw_data "chicago" 2024 1 false envT fs0).fs = false :=
  ⟨rfl, rfl⟩

/-- C10 (amended): the cache directory is created only after the download
request returns a response, but before the archive is written and extracted;
if the file write or the extraction then fails (the caught-exception
branch), the directory persists — the subsequent cache check for that
(city, year, month) returns a hit — even though no CSV was extracted (the
CSV path holds exactly what it held before).  A failure of the network
request itself happens before the directory is created and leaves no cache
entry behind. -/
theorem C10_post_request_failure_leaves_dir (city : String) (year month : Nat)
    (keep : Bool) (env : Env) (fs : Fs) (url zn : String) (r : Response)
    (hurl : get_url_for_city_data city year month = .ok (some url))
    (hzn : get_zipfile_name url = .ok zn)
    (hhttp : env.http url = some r)
    (hfail : env.writeFails (RAW_DATA_DIR ++ "/" ++ city ++ "/" ++ zn) = true
           ∨ env.unzip r.content (zn.dropRight 4 ++ ".csv") = none)
    (hne : ¬ (RAW_DATA_DIR ++ "/" ++ city ++ "/" ++ zn.dropRight 4 ++ "/"
              ++ zn.dropRight 4 ++ ".csv")
            = (RAW_DATA_DIR ++ "/" ++ city ++ "/" ++ zn)) :
    (download_one_file_of_raw_data city year month keep env fs).result = .ok none
  ∧ data_file_exists city (zn.dropRight 4)
      (download_one_file_of_raw_data city year month keep env fs).fs = true
  ∧ (download_one_file_of_raw_data city year month keep env fs).fs.files.lookup
      (RAW_DATA_DIR ++ "/" ++ city ++ "/" ++ zn.dropRight 4 ++ "/"
        ++ zn.dropRight 4 ++ ".csv")
    = fs.files.lookup (RAW_DATA_DIR ++ "/" ++ city ++ "/" ++ zn.dropRight 4 ++ "/"
        ++ zn.dropRight 4 ++ ".csv") := by
  unfold download_one_file_of_raw_data
  rw [hurl]
  dsimp only
  rw [hzn]
  dsimp only
  rw [hhttp]
  dsimp only
  split
  · -- the file write raises: caught, directory already created
    refine ⟨rfl, ?_, ?_⟩
    · unfold data_file_exists
      split
      · assumption
      · exact pathExists_mkdir_self fs _
    · split <;> rfl
  · -- the write succeeds, so by hfail the extraction raises: caught
    rename_i hwf
    cases hfail with
    | inl hw => exact absurd hw hwf
    | inr hu =>
      rw [hu]
      dsimp only
      refine ⟨rfl, ?_, ?_⟩
      · unfold data_file_exists
        apply pathExists_write
        split
        · assumption
        · exact pathExists_mkdir_self fs _
      · rw [lookup_write_ne _ _ _ _ hne]
        split <;> rfl

theorem C10_post_request_failure_leaves_dir_witness :
    (download_one_file_of_raw_data "chicago" 2024 1 false envBadZip fs0).result
      = .ok none
  ∧ data_file_exists "chicago" "202401-divvy-tripdata"
      (download_one_file_of_raw_data "chicago" 2024 1 false envBadZip fs0).fs = true
  ∧ (download_one_file_of_raw_data "chicago" 2024 1 false envBadZip fs0).fs.files.lookup
      "raw/chicago/202401-divvy-tripdata/202401-divvy-tripdata.csv"
    = fs0.files.lookup "raw/chicago/202401-divvy-tripdata/202401-divvy-tripdata.csv" :=
  C10_post_request_failure_leaves_dir "chicago" 2024 1 false envBadZip fs0
    (chicagoUrl 1) "202401-divvy-tripdata.zip" ⟨404, "NOTAZIP"⟩ rfl rfl rfl
    (Or.inr rfl) (by decide)
